import Mathlib

/-!
Shallow embedding of the feature-extraction and run-averaging logic of the
icetop_muons repository (src/NN_data.py and src/neural_network_data.py).

Python floats are modelled as exact rationals, Python lists of numbers as
List ℚ, and the fallible operations of the numeric core (sequence indexing
and division) return Except PyError, mirroring IndexError and
ZeroDivisionError.  The module-level accumulator list NNdata400 of
neural_network_data.py is modelled by explicit state passing: process_shower
receives the current list and returns the updated one.
-/

set_option autoImplicit false

namespace IceTop

/-- The two runtime errors the embedded numeric core can raise. -/
inductive PyError where
  | indexError
  | zeroDivisionError
deriving DecidableEq, Repr

/-- Python sequence indexing: xs[i], raising IndexError when out of range. -/
def pyGet (xs : List ℚ) (i : ℕ) : Except PyError ℚ :=
  match xs.get? i with
  | some x => .ok x
  | none => .error .indexError

/-- Python division: a / b, raising ZeroDivisionError when b = 0. -/
def pyDiv (a b : ℚ) : Except PyError ℚ :=
  if b = 0 then .error .zeroDivisionError else .ok (a / b)

/-- The parallel per-detector signal sequences of a shower
(shower.Signals in the source).  Only the length of Tank is read by the
code, but it is a sequence like the others. -/
structure Signals where
  Tank : List ℚ
  LatDist : List ℚ
  TotalPE : List ℚ
  TotalVEM : List ℚ
  MuonPE : List ℚ
  nMuons : List ℚ
  TimeDelay : List ℚ
deriving DecidableEq, Repr

/-- shower.Reconstruction: NN_data.py reads Energy and zen;
neural_network_data.py reads E_Proton, E_Iron and zen. -/
structure Reconstruction where
  Energy : ℚ
  E_Proton : ℚ
  E_Iron : ℚ
  zen : ℚ
deriving DecidableEq, Repr

/-- shower.Primary: the primary-particle label (field named Type in the
source; Type is reserved in Lean, hence Ptype). -/
structure Primary where
  Ptype : String
deriving DecidableEq, Repr

/-- One shower record, as accessed by both source files. -/
structure Shower where
  Run : ℤ
  Reconstruction : Reconstruction
  Primary : Primary
  Signals : Signals
deriving DecidableEq, Repr

/-- The four running sums of the detector loop of process_showers
(NN_data.py lines 17-20). -/
structure Sums where
  TimeDelay : ℚ
  Q : ℚ
  MuonVEM : ℚ
  nMuons : ℚ
deriving DecidableEq, Repr

/-- One feature row of NN_data.py line 35:
[Run, Energy, Zen, TimeDelay, Q, MuonVEM, nMuons, Type]. -/
structure FeatureRow where
  Run : ℤ
  Energy : ℚ
  Zen : ℚ
  TimeDelay : ℚ
  Q : ℚ
  MuonVEM : ℚ
  nMuons : ℚ
  Ptype : String
deriving DecidableEq, Repr

/-- The body of the detector loop of process_showers (NN_data.py lines
23-33) at index i, acting on the running sums.  Evaluation order and the
short-circuit of the Python `and` are preserved: TotalPE[i] is read only
when LatDist[i] >= 400, and the remaining sequences only when both cut
conditions hold. -/
def loopBody (sig : Signals) (acc : Sums) (i : ℕ) : Except PyError Sums := do
  let latDist ← pyGet sig.LatDist i
  if 400 ≤ latDist then
    let pe0 ← pyGet sig.TotalPE i
    if pe0 ≠ 0 then
      let totalVEM ← pyGet sig.TotalVEM i
      let totalPE ← pyGet sig.TotalPE i
      let scale ← pyDiv totalVEM totalPE
      let muonPE ← pyGet sig.MuonPE i
      let scaledPE := scale * muonPE
      let nMu ← pyGet sig.nMuons i
      let acc1 : Sums :=
        { acc with nMuons := acc.nMuons + nMu, MuonVEM := acc.MuonVEM + scaledPE }
      if 0.6 ≤ totalVEM ∧ totalVEM ≤ 2.0 then
        let td ← pyGet sig.TimeDelay i
        pure { acc1 with TimeDelay := acc1.TimeDelay + |td|, Q := acc1.Q + totalVEM }
      else
        pure acc1
    else
      pure acc
  else
    pure acc

/-- Running the detector loop over a list of indices (the Python
`for i in range(...)`), threading the running sums and propagating the
first error. -/
def loopIdx (sig : Signals) : List ℕ → Sums → Except PyError Sums
  | [], acc => .ok acc
  | i :: is, acc => loopBody sig acc i >>= loopIdx sig is

/-- The per-shower body of process_showers (NN_data.py lines 10-35):
metadata extraction, the detector loop over range(len(shower.Signals.Tank)),
and assembly of the feature row. -/
def processShowerBody (shower : Shower) : Except PyError FeatureRow := do
  let sums ← loopIdx shower.Signals (List.range shower.Signals.Tank.length) ⟨0, 0, 0, 0⟩
  pure
    { Run := shower.Run
      Energy := shower.Reconstruction.Energy
      Zen := shower.Reconstruction.zen
      TimeDelay := sums.TimeDelay
      Q := sums.Q
      MuonVEM := sums.MuonVEM
      nMuons := sums.nMuons
      Ptype := shower.Primary.Ptype }

/-- process_showers (NN_data.py lines 7-36): process each shower in order,
appending its row to the output list; any error aborts the whole call. -/
def process_showers : List Shower → Except PyError (List FeatureRow)
  | [] => .ok []
  | s :: rest => do
    let row ← processShowerBody s
    let out ← process_showers rest
    pure (row :: out)

/-- The three running sums of the detector loop of process_shower
(neural_network_data.py lines 12-14). -/
structure Sums400 where
  Q400 : ℚ
  MuonVEM : ℚ
  nMuon : ℚ
deriving DecidableEq, Repr

/-- One row of the NNdata400 accumulator (neural_network_data.py line 28):
[E_proton, E_iron, Zen, Q400, MuonVEM, nMuon, Type]. -/
structure Row400 where
  E_proton : ℚ
  E_iron : ℚ
  Zen : ℚ
  Q400 : ℚ
  MuonVEM : ℚ
  nMuon : ℚ
  Ptype : String
deriving DecidableEq, Repr

/-- The body of the detector loop of process_shower
(neural_network_data.py lines 17-26): as loopBody, but with the strict
distance cut LatDist[i] > 400 and no time-delay sum. -/
def loopBody400 (sig : Signals) (acc : Sums400) (i : ℕ) : Except PyError Sums400 := do
  let latDist ← pyGet sig.LatDist i
  if 400 < latDist then
    let pe0 ← pyGet sig.TotalPE i
    if pe0 ≠ 0 then
      let totalVEM ← pyGet sig.TotalVEM i
      let totalPE ← pyGet sig.TotalPE i
      let scale ← pyDiv totalVEM totalPE
      let muonPE ← pyGet sig.MuonPE i
      let scaledPE := scale * muonPE
      let nMu ← pyGet sig.nMuons i
      let acc1 : Sums400 :=
        { acc with nMuon := acc.nMuon + nMu, MuonVEM := acc.MuonVEM + scaledPE }
      if 0.6 ≤ totalVEM ∧ totalVEM ≤ 2.0 then
        pure { acc1 with Q400 := acc1.Q400 + totalVEM }
      else
        pure acc1
    else
      pure acc
  else
    pure acc

/-- Running the strict-cut detector loop over a list of indices. -/
def loopIdx400 (sig : Signals) : List ℕ → Sums400 → Except PyError Sums400
  | [], acc => .ok acc
  | i :: is, acc => loopBody400 sig acc i >>= loopIdx400 sig is

/-- process_shower (neural_network_data.py lines 5-28).  The module-level
accumulator NNdata400 is passed in and the updated list is returned: the
Python function returns None and appends its row to the global. -/
def process_shower (shower : Shower) (NNdata400 : List Row400) :
    Except PyError (List Row400) := do
  let sums ← loopIdx400 shower.Signals (List.range shower.Signals.Tank.length) ⟨0, 0, 0⟩
  pure (NNdata400 ++
    [{ E_proton := shower.Reconstruction.E_Proton
       E_iron := shower.Reconstruction.E_Iron
       Zen := shower.Reconstruction.zen
       Q400 := sums.Q400
       MuonVEM := sums.MuonVEM
       nMuon := sums.nMuon
       Ptype := shower.Primary.Ptype }])

/-- The per-run accumulators of avg_runs (NN_data.py lines 48-54). -/
structure Totals where
  nShowers : ℚ
  Energy : ℚ
  Zen : ℚ
  TimeDelay : ℚ
  Q : ℚ
  MuonVEM : ℚ
  nMuons : ℚ
deriving DecidableEq, Repr

/-- One averaged row of avg_runs (NN_data.py line 71):
[Run, Energy_avg, Zen_avg, TimeDelay_avg, Q_avg, MuonVEM_avg, nMuons_avg, Type]. -/
structure AggRow where
  Run : ℤ
  Energy : ℚ
  Zen : ℚ
  TimeDelay : ℚ
  Q : ℚ
  MuonVEM : ℚ
  nMuons : ℚ
  Ptype : String
deriving DecidableEq, Repr

/-- The body of the inner loop of avg_runs (NN_data.py lines 55-63): add a
row's fields to the per-run totals when its run id matches. -/
def tally (Run : ℤ) (t : Totals) (r : FeatureRow) : Totals :=
  if r.Run = Run then
    { nShowers := t.nShowers + 1
      Energy := t.Energy + r.Energy
      Zen := t.Zen + r.Zen
      TimeDelay := t.TimeDelay + r.TimeDelay
      Q := t.Q + r.Q
      MuonVEM := t.MuonVEM + r.MuonVEM
      nMuons := t.nMuons + r.nMuons }
  else
    t

/-- One iteration of the outer loop of avg_runs (NN_data.py lines 47-71):
scan the whole row list for one run id, then divide each total by the
shower count (Python float division, so a zero count would raise
ZeroDivisionError). -/
def avgRun (L : List FeatureRow) (Ptype : String) (Run : ℤ) :
    Except PyError AggRow := do
  let t := L.foldl (tally Run) ⟨0, 0, 0, 0, 0, 0, 0⟩
  let e ← pyDiv t.Energy t.nShowers
  let z ← pyDiv t.Zen t.nShowers
  let td ← pyDiv t.TimeDelay t.nShowers
  let q ← pyDiv t.Q t.nShowers
  let mv ← pyDiv t.MuonVEM t.nShowers
  let nm ← pyDiv t.nMuons t.nShowers
  pure
    { Run := Run
      Energy := e
      Zen := z
      TimeDelay := td
      Q := q
      MuonVEM := mv
      nMuons := nm
      Ptype := Ptype }

/-- The outer loop of avg_runs over the distinct run ids, appending one
averaged row per id. -/
def avgRunsLoop (L : List FeatureRow) (Ptype : String) :
    List ℤ → Except PyError (List AggRow)
  | [] => .ok []
  | Run :: rest => do
    let row ← avgRun L Ptype Run
    let out ← avgRunsLoop L Ptype rest
    pure (row :: out)

/-- avg_runs (NN_data.py lines 39-73).  The Python set run_list collects
the distinct run ids of the rows; a set's iteration order is unspecified,
so it is modelled by the duplicate-free list (L.map Run).dedup — every
property proved about the result is insensitive to that order. -/
def avg_runs (L : List FeatureRow) (Ptype : String) : Except PyError (List AggRow) :=
  avgRunsLoop L Ptype (L.map (fun s => s.Run)).dedup

/-! ### Concrete test fixtures

demoShower is the end-to-end example of the specification: detector A at
distance 500 with PE 10, VEM 1, muon PE 5, 2 muons, time delay 3;
detector B at distance 300 (below the cut) with PE 8, VEM 4/5. -/

def demoShower : Shower :=
  { Run := 7
    Reconstruction := { Energy := 10, E_Proton := 11, E_Iron := 12, zen := 1/2 }
    Primary := { Ptype := "PPlus" }
    Signals :=
      { Tank := [0, 0]
        LatDist := [500, 300]
        TotalPE := [10, 8]
        TotalVEM := [1, 4/5]
        MuonPE := [5, 0]
        nMuons := [2, 0]
        TimeDelay := [3, 1] } }

/-- A shower with a single detector exactly at the cut radius 400, with
nonzero PE and three muons. -/
def cxBoundary : Shower :=
  { Run := 7
    Reconstruction := { Energy := 10, E_Proton := 11, E_Iron := 12, zen := 1/2 }
    Primary := { Ptype := "PPlus" }
    Signals :=
      { Tank := [0]
        LatDist := [400]
        TotalPE := [5]
        TotalVEM := [5]
        MuonPE := [5]
        nMuons := [3]
        TimeDelay := [2] } }

/-- A shower with a single selected detector whose VEM charge 21/10 lies
just above the [0.6, 2.0] band. -/
def cxVEM21 : Shower :=
  { Run := 7
    Reconstruction := { Energy := 10, E_Proton := 11, E_Iron := 12, zen := 1/2 }
    Primary := { Ptype := "PPlus" }
    Signals :=
      { Tank := [0]
        LatDist := [500]
        TotalPE := [10]
        TotalVEM := [21/10]
        MuonPE := [5]
        nMuons := [2]
        TimeDelay := [3] } }

/-- A shower whose parallel signal sequences have mismatched lengths
(LatDist has two entries, every other sequence one), but whose single
iterated index stays in range of every sequence. -/
def cxMismatch : Shower :=
  { Run := 7
    Reconstruction := { Energy := 10, E_Proton := 11, E_Iron := 12, zen := 1/2 }
    Primary := { Ptype := "PPlus" }
    Signals :=
      { Tank := [0]
        LatDist := [300, 7]
        TotalPE := [8]
        TotalVEM := [1]
        MuonPE := [1]
        nMuons := [1]
        TimeDelay := [1] } }

/-- A shower whose LatDist sequence is shorter than its Tank sequence. -/
def cxLatShort : Shower :=
  { Run := 7
    Reconstruction := { Energy := 10, E_Proton := 11, E_Iron := 12, zen := 1/2 }
    Primary := { Ptype := "PPlus" }
    Signals :=
      { Tank := [0, 0]
        LatDist := [500]
        TotalPE := [10, 10]
        TotalVEM := [1, 1]
        MuonPE := [5, 5]
        nMuons := [2, 2]
        TimeDelay := [3, 3] } }

/-- A concrete feature row for run 3. -/
def demoRowA : FeatureRow :=
  { Run := 3, Energy := 1, Zen := 2, TimeDelay := 3, Q := 4, MuonVEM := 5,
    nMuons := 6, Ptype := "PPlus" }

/-! ### Basic lemmas about the fallible primitives -/

lemma pyGet_eq_ok {xs : List ℚ} {i : ℕ} {x : ℚ} (h : xs.get? i = some x) :
    pyGet xs i = .ok x := by
  simp [pyGet, ← List.get?_eq_getElem?, h]

lemma pyGet_eq_err {xs : List ℚ} {i : ℕ} (h : xs.length ≤ i) :
    pyGet xs i = .error .indexError := by
  simp [pyGet, ← List.get?_eq_getElem?, List.get?_eq_none.mpr h]

lemma pyDiv_eq_ok {a b : ℚ} (h : b ≠ 0) : pyDiv a b = .ok (a / b) := by
  simp [pyDiv, h]

/-- Every possible outcome of pyGet: an IndexError, or the value stored at
the index. -/
lemma pyGet_cases (xs : List ℚ) (i : ℕ) :
    pyGet xs i = .error .indexError ∨ ∃ x, xs.get? i = some x ∧ pyGet xs i = .ok x := by
  unfold pyGet
  cases h : xs.get? i with
  | none => exact Or.inl rfl
  | some x => exact Or.inr ⟨x, rfl, rfl⟩

/-! ### Characterization of the detector-loop body (NN_data.py) -/

/-- One pass of the detector loop of process_showers, fully characterized
when index i is in range of every signal sequence: the detector
contributes to the muon sums iff LatDist[i] >= 400 and TotalPE[i] != 0,
and to the time-delay and charge sums iff additionally
0.6 <= TotalVEM[i] <= 2.0. -/
lemma loopBody_spec (sig : Signals) (acc : Sums) (i : ℕ)
    (d p v mpe nm td : ℚ)
    (hd : sig.LatDist.get? i = some d)
    (hp : sig.TotalPE.get? i = some p)
    (hv : sig.TotalVEM.get? i = some v)
    (hm : sig.MuonPE.get? i = some mpe)
    (hn : sig.nMuons.get? i = some nm)
    (ht : sig.TimeDelay.get? i = some td) :
    loopBody sig acc i = .ok
      { TimeDelay := acc.TimeDelay +
          (if (400 ≤ d ∧ p ≠ 0) ∧ (0.6 ≤ v ∧ v ≤ 2.0) then |td| else 0)
        Q := acc.Q + (if (400 ≤ d ∧ p ≠ 0) ∧ (0.6 ≤ v ∧ v ≤ 2.0) then v else 0)
        MuonVEM := acc.MuonVEM + (if 400 ≤ d ∧ p ≠ 0 then v / p * mpe else 0)
        nMuons := acc.nMuons + (if 400 ≤ d ∧ p ≠ 0 then nm else 0) } := by
  by_cases h1 : (400 : ℚ) ≤ d <;> by_cases h2 : p = 0 <;>
    by_cases h3 : (0.6 : ℚ) ≤ v ∧ v ≤ 2.0 <;>
      simp [loopBody, bind, Except.bind, pure, Except.pure, pyDiv,
        pyGet_eq_ok hd, pyGet_eq_ok hp, pyGet_eq_ok hv,
        pyGet_eq_ok hm, pyGet_eq_ok hn, pyGet_eq_ok ht,
        h1, h2, h3]

/-- The detector loop body never raises ZeroDivisionError: the division by
TotalPE[i] happens only after TotalPE[i] != 0 has been checked. -/
lemma loopBody_ne_zeroDiv (sig : Signals) (acc : Sums) (i : ℕ) :
    loopBody sig acc i ≠ .error .zeroDivisionError := by
  unfold loopBody
  rcases pyGet_cases sig.LatDist i with h | ⟨d, hd, h⟩ <;>
  rcases pyGet_cases sig.TotalPE i with h2 | ⟨p, hp, h2⟩ <;>
  rcases pyGet_cases sig.TotalVEM i with h3 | ⟨v, hv, h3⟩ <;>
  rcases pyGet_cases sig.MuonPE i with h4 | ⟨mpe, hm, h4⟩ <;>
  rcases pyGet_cases sig.nMuons i with h5 | ⟨nm, hn, h5⟩ <;>
  rcases pyGet_cases sig.TimeDelay i with h6 | ⟨td, ht, h6⟩ <;>
  simp only [h, h2, h3, h4, h5, h6, bind, Except.bind, pure, Except.pure,
    Functor.map, Except.map] <;>
  first
  | (split_ifs <;> simp_all [pyDiv])
  | simp_all [pyDiv]

/-- When index i is out of range of LatDist, the loop body raises
IndexError whatever the running sums are. -/
lemma loopBody_latDist_err (sig : Signals) (acc : Sums) (i : ℕ)
    (h : sig.LatDist.length ≤ i) :
    loopBody sig acc i = .error .indexError := by
  unfold loopBody
  simp [pyGet_eq_err h, bind, Except.bind]

/-! ### The detector loop of process_showers over a full index range -/

lemma loopIdx_append (sig : Signals) (l₁ l₂ : List ℕ) (acc : Sums) :
    loopIdx sig (l₁ ++ l₂) acc = loopIdx sig l₁ acc >>= loopIdx sig l₂ := by
  induction l₁ generalizing acc with
  | nil => simp [loopIdx, bind, Except.bind]
  | cons i is ih =>
    simp only [List.cons_append, loopIdx]
    cases loopBody sig acc i with
    | error e => simp [bind, Except.bind]
    | ok acc2 => simp [bind, Except.bind, ih]

/-- Closed form of the detector loop of process_showers over indices
0..n-1, when every signal sequence has at least n entries described by the
functions d, p, v, mpe, nm, td: each of the four running sums is a sum of
per-detector contributions gated by the cuts of NN_data.py lines 24 and 31. -/
lemma loopIdx_range_spec (sig : Signals) (n : ℕ) (d p v mpe nm td : ℕ → ℚ)
    (hd : ∀ j, j < n → sig.LatDist.get? j = some (d j))
    (hp : ∀ j, j < n → sig.TotalPE.get? j = some (p j))
    (hv : ∀ j, j < n → sig.TotalVEM.get? j = some (v j))
    (hm : ∀ j, j < n → sig.MuonPE.get? j = some (mpe j))
    (hn : ∀ j, j < n → sig.nMuons.get? j = some (nm j))
    (ht : ∀ j, j < n → sig.TimeDelay.get? j = some (td j))
    (acc : Sums) :
    loopIdx sig (List.range n) acc = .ok
      { TimeDelay := acc.TimeDelay + ∑ j ∈ Finset.range n,
          (if (400 ≤ d j ∧ p j ≠ 0) ∧ (0.6 ≤ v j ∧ v j ≤ 2.0) then |td j| else 0)
        Q := acc.Q + ∑ j ∈ Finset.range n,
          (if (400 ≤ d j ∧ p j ≠ 0) ∧ (0.6 ≤ v j ∧ v j ≤ 2.0) then v j else 0)
        MuonVEM := acc.MuonVEM + ∑ j ∈ Finset.range n,
          (if 400 ≤ d j ∧ p j ≠ 0 then v j / p j * mpe j else 0)
        nMuons := acc.nMuons + ∑ j ∈ Finset.range n,
          (if 400 ≤ d j ∧ p j ≠ 0 then nm j else 0) } := by
  induction n generalizing acc with
  | zero => simp [loopIdx]
  | succ n ih =>
    have hlt : n < n + 1 := Nat.lt_succ_self n
    rw [List.range_succ, loopIdx_append]
    rw [ih (fun j hj => hd j (hj.trans hlt)) (fun j hj => hp j (hj.trans hlt))
      (fun j hj => hv j (hj.trans hlt)) (fun j hj => hm j (hj.trans hlt))
      (fun j hj => hn j (hj.trans hlt)) (fun j hj => ht j (hj.trans hlt)) acc]
    simp only [bind, Except.bind, loopIdx]
    rw [loopBody_spec _ _ n (d n) (p n) (v n) (mpe n) (nm n) (td n)
      (hd n hlt) (hp n hlt) (hv n hlt) (hm n hlt) (hn n hlt) (ht n hlt)]
    simp [Finset.sum_range_succ, add_assoc]

/-- Any error the detector loop raises is an IndexError. -/
lemma loopIdx_err_index (sig : Signals) :
    ∀ (l : List ℕ) (acc : Sums) (e : PyError),
      loopIdx sig l acc = .error e → e = .indexError := by
  intro l
  induction l with
  | nil => intro acc e h; simp [loopIdx] at h
  | cons i is ih =>
    intro acc e h
    rw [loopIdx] at h
    cases hb : loopBody sig acc i with
    | error e2 =>
      rw [hb] at h
      simp only [bind, Except.bind] at h
      cases e2 with
      | indexError => exact (Except.error.injEq _ _).mp h.symm
      | zeroDivisionError => exact absurd hb (loopBody_ne_zeroDiv sig acc i)
    | ok acc2 =>
      rw [hb] at h
      simp only [bind, Except.bind] at h
      exact ih acc2 e h

/-- If some index of the list makes the loop body fail for every value of
the running sums, the whole loop raises IndexError. -/
lemma loopIdx_fails (sig : Signals) (i0 : ℕ)
    (hfail : ∀ acc : Sums, loopBody sig acc i0 = .error .indexError) :
    ∀ (l : List ℕ) (acc : Sums), i0 ∈ l → loopIdx sig l acc = .error .indexError := by
  intro l
  induction l with
  | nil => intro acc h; simp at h
  | cons i is ih =>
    intro acc hmem
    rw [loopIdx]
    cases hb : loopBody sig acc i with
    | error e =>
      simp only [bind, Except.bind]
      cases e with
      | indexError => rfl
      | zeroDivisionError => exact absurd hb (loopBody_ne_zeroDiv sig acc i)
    | ok acc2 =>
      simp only [bind, Except.bind]
      rcases List.mem_cons.mp hmem with h | h
      · rw [← h] at hb
        rw [hfail acc] at hb
        exact absurd hb (by simp)
      · exact ih acc2 h

/-! ### The per-shower body and the shower loop of process_showers -/

/-- Closed form of one feature row of process_showers when every signal
sequence covers the index range of the Tank sequence. -/
lemma processShowerBody_spec (s : Shower) (d p v mpe nm td : ℕ → ℚ)
    (hd : ∀ j, j < s.Signals.Tank.length → s.Signals.LatDist.get? j = some (d j))
    (hp : ∀ j, j < s.Signals.Tank.length → s.Signals.TotalPE.get? j = some (p j))
    (hv : ∀ j, j < s.Signals.Tank.length → s.Signals.TotalVEM.get? j = some (v j))
    (hm : ∀ j, j < s.Signals.Tank.length → s.Signals.MuonPE.get? j = some (mpe j))
    (hn : ∀ j, j < s.Signals.Tank.length → s.Signals.nMuons.get? j = some (nm j))
    (ht : ∀ j, j < s.Signals.Tank.length → s.Signals.TimeDelay.get? j = some (td j)) :
    processShowerBody s = .ok
      { Run := s.Run
        Energy := s.Reconstruction.Energy
        Zen := s.Reconstruction.zen
        TimeDelay := ∑ j ∈ Finset.range s.Signals.Tank.length,
          (if (400 ≤ d j ∧ p j ≠ 0) ∧ (0.6 ≤ v j ∧ v j ≤ 2.0) then |td j| else 0)
        Q := ∑ j ∈ Finset.range s.Signals.Tank.length,
          (if (400 ≤ d j ∧ p j ≠ 0) ∧ (0.6 ≤ v j ∧ v j ≤ 2.0) then v j else 0)
        MuonVEM := ∑ j ∈ Finset.range s.Signals.Tank.length,
          (if 400 ≤ d j ∧ p j ≠ 0 then v j / p j * mpe j else 0)
        nMuons := ∑ j ∈ Finset.range s.Signals.Tank.length,
          (if 400 ≤ d j ∧ p j ≠ 0 then nm j else 0)
        Ptype := s.Primary.Ptype } := by
  unfold processShowerBody
  rw [loopIdx_range_spec s.Signals s.Signals.Tank.length d p v mpe nm td
    hd hp hv hm hn ht ⟨0, 0, 0, 0⟩]
  simp [bind, Except.bind, pure, Except.pure]

/-- If LatDist is shorter than Tank, the detector loop always hits an
out-of-range read of LatDist, so the shower body raises IndexError. -/
lemma processShowerBody_latShort (s : Shower)
    (h : s.Signals.LatDist.length < s.Signals.Tank.length) :
    processShowerBody s = .error .indexError := by
  unfold processShowerBody
  rw [loopIdx_fails s.Signals s.Signals.LatDist.length
    (fun acc => loopBody_latDist_err s.Signals acc _ (le_refl _))
    (List.range s.Signals.Tank.length) ⟨0, 0, 0, 0⟩ (List.mem_range.mpr h)]
  rfl

/-- Any error of the shower body is an IndexError. -/
lemma processShowerBody_err_index (s : Shower) (e : PyError)
    (h : processShowerBody s = .error e) : e = .indexError := by
  unfold processShowerBody at h
  cases hl : loopIdx s.Signals (List.range s.Signals.Tank.length) ⟨0, 0, 0, 0⟩ with
  | error e2 =>
    rw [hl] at h
    simp only [bind, Except.bind] at h
    cases h
    exact loopIdx_err_index s.Signals _ _ _ hl
  | ok sums =>
    rw [hl] at h
    simp [bind, Except.bind, pure, Except.pure] at h

/-- process_showers never raises ZeroDivisionError: the VEM/PE division is
guarded by the TotalPE[i] != 0 cut. -/
lemma process_showers_ne_zeroDiv (L : List Shower) :
    process_showers L ≠ .error .zeroDivisionError := by
  induction L with
  | nil => simp [process_showers]
  | cons s rest ih =>
    rw [process_showers]
    cases hb : processShowerBody s with
    | error e =>
      simp only [bind, Except.bind]
      intro hcon
      cases hcon
      have hix := processShowerBody_err_index s _ hb
      simp at hix
    | ok row =>
      simp only [bind, Except.bind]
      cases hr : process_showers rest with
      | error e =>
        intro hcon
        cases hcon
        exact ih hr
      | ok out => simp [pure, Except.pure]

/-- Successful runs of process_showers produce one row per shower, in
order: the output has the input's length and the row at index i is the
processed shower at index i. -/
lemma process_showers_shape :
    ∀ (L : List Shower) (out : List FeatureRow), process_showers L = .ok out →
      out.length = L.length ∧
      ∀ (i : ℕ) (s : Shower) (r : FeatureRow),
        L.get? i = some s → out.get? i = some r → processShowerBody s = .ok r := by
  intro L
  induction L with
  | nil =>
    intro out h
    rw [process_showers] at h
    cases h
    exact ⟨rfl, by intro i s r hs; simp at hs⟩
  | cons s rest ih =>
    intro out h
    rw [process_showers] at h
    cases hb : processShowerBody s with
    | error e => rw [hb] at h; simp [bind, Except.bind] at h
    | ok row =>
      rw [hb] at h
      simp only [bind, Except.bind] at h
      cases hr : process_showers rest with
      | error e => rw [hr] at h; simp at h
      | ok out2 =>
        rw [hr] at h
        simp only [pure, Except.pure, Except.ok.injEq] at h
        cases h
        obtain ⟨hlen, hidx⟩ := ih out2 hr
        refine ⟨by simp [hlen], ?_⟩
        intro i s2 r hs2 hr2
        cases i with
        | zero =>
          simp only [List.get?] at hs2 hr2
          cases hs2; cases hr2
          exact hb
        | succ i =>
          simp only [List.get?] at hs2 hr2
          exact hidx i s2 r hs2 hr2

/-! ### The strict-cut detector loop of process_shower
(neural_network_data.py) -/

/-- One pass of the detector loop of process_shower, fully characterized
when index i is in range of every signal sequence: the inclusion cut is
the strict LatDist[i] > 400 together with TotalPE[i] != 0. -/
lemma loopBody400_spec (sig : Signals) (acc : Sums400) (i : ℕ)
    (d p v mpe nm : ℚ)
    (hd : sig.LatDist.get? i = some d)
    (hp : sig.TotalPE.get? i = some p)
    (hv : sig.TotalVEM.get? i = some v)
    (hm : sig.MuonPE.get? i = some mpe)
    (hn : sig.nMuons.get? i = some nm) :
    loopBody400 sig acc i = .ok
      { Q400 := acc.Q400 +
          (if (400 < d ∧ p ≠ 0) ∧ (0.6 ≤ v ∧ v ≤ 2.0) then v else 0)
        MuonVEM := acc.MuonVEM + (if 400 < d ∧ p ≠ 0 then v / p * mpe else 0)
        nMuon := acc.nMuon + (if 400 < d ∧ p ≠ 0 then nm else 0) } := by
  by_cases h1 : (400 : ℚ) < d <;> by_cases h2 : p = 0 <;>
    by_cases h3 : (0.6 : ℚ) ≤ v ∧ v ≤ 2.0 <;>
      simp [loopBody400, bind, Except.bind, pure, Except.pure, pyDiv,
        pyGet_eq_ok hd, pyGet_eq_ok hp, pyGet_eq_ok hv,
        pyGet_eq_ok hm, pyGet_eq_ok hn, h1, h2, h3]

/-- The strict-cut loop body never raises ZeroDivisionError. -/
lemma loopBody400_ne_zeroDiv (sig : Signals) (acc : Sums400) (i : ℕ) :
    loopBody400 sig acc i ≠ .error .zeroDivisionError := by
  unfold loopBody400
  rcases pyGet_cases sig.LatDist i with h | ⟨d, hd, h⟩ <;>
  rcases pyGet_cases sig.TotalPE i with h2 | ⟨p, hp, h2⟩ <;>
  rcases pyGet_cases sig.TotalVEM i with h3 | ⟨v, hv, h3⟩ <;>
  rcases pyGet_cases sig.MuonPE i with h4 | ⟨mpe, hm, h4⟩ <;>
  rcases pyGet_cases sig.nMuons i with h5 | ⟨nm, hn, h5⟩ <;>
  simp only [h, h2, h3, h4, h5, bind, Except.bind, pure, Except.pure,
    Functor.map, Except.map] <;>
  first
  | (split_ifs <;> simp_all [pyDiv])
  | simp_all [pyDiv]

lemma loopIdx400_append (sig : Signals) (l₁ l₂ : List ℕ) (acc : Sums400) :
    loopIdx400 sig (l₁ ++ l₂) acc = loopIdx400 sig l₁ acc >>= loopIdx400 sig l₂ := by
  induction l₁ generalizing acc with
  | nil => simp [loopIdx400, bind, Except.bind]
  | cons i is ih =>
    simp only [List.cons_append, loopIdx400]
    cases loopBody400 sig acc i with
    | error e => simp [bind, Except.bind]
    | ok acc2 => simp [bind, Except.bind, ih]

/-- Closed form of the strict-cut detector loop over indices 0..n-1. -/
lemma loopIdx400_range_spec (sig : Signals) (n : ℕ) (d p v mpe nm : ℕ → ℚ)
    (hd : ∀ j, j < n → sig.LatDist.get? j = some (d j))
    (hp : ∀ j, j < n → sig.TotalPE.get? j = some (p j))
    (hv : ∀ j, j < n → sig.TotalVEM.get? j = some (v j))
    (hm : ∀ j, j < n → sig.MuonPE.get? j = some (mpe j))
    (hn : ∀ j, j < n → sig.nMuons.get? j = some (nm j))
    (acc : Sums400) :
    loopIdx400 sig (List.range n) acc = .ok
      { Q400 := acc.Q400 + ∑ j ∈ Finset.range n,
          (if (400 < d j ∧ p j ≠ 0) ∧ (0.6 ≤ v j ∧ v j ≤ 2.0) then v j else 0)
        MuonVEM := acc.MuonVEM + ∑ j ∈ Finset.range n,
          (if 400 < d j ∧ p j ≠ 0 then v j / p j * mpe j else 0)
        nMuon := acc.nMuon + ∑ j ∈ Finset.range n,
          (if 400 < d j ∧ p j ≠ 0 then nm j else 0) } := by
  induction n generalizing acc with
  | zero => simp [loopIdx400]
  | succ n ih =>
    have hlt : n < n + 1 := Nat.lt_succ_self n
    rw [List.range_succ, loopIdx400_append]
    rw [ih (fun j hj => hd j (hj.trans hlt)) (fun j hj => hp j (hj.trans hlt))
      (fun j hj => hv j (hj.trans hlt)) (fun j hj => hm j (hj.trans hlt))
      (fun j hj => hn j (hj.trans hlt)) acc]
    simp only [bind, Except.bind, loopIdx400]
    rw [loopBody400_spec _ _ n (d n) (p n) (v n) (mpe n) (nm n)
      (hd n hlt) (hp n hlt) (hv n hlt) (hm n hlt) (hn n hlt)]
    simp [Finset.sum_range_succ, add_assoc]

/-- process_shower either appends exactly one row — determined by the
shower alone — to the NNdata400 accumulator, or fails with the same error
regardless of the accumulator's prior value. -/
lemma process_shower_effect (s : Shower) (g : List Row400) :
    (∃ r, process_shower s g = .ok (g ++ [r]) ∧ process_shower s [] = .ok [r]) ∨
    (∃ e, process_shower s g = .error e ∧ process_shower s [] = .error e) := by
  unfold process_shower
  cases hl : loopIdx400 s.Signals (List.range s.Signals.Tank.length) ⟨0, 0, 0⟩ with
  | error e =>
    right
    exact ⟨e, by simp [bind, Except.bind], by simp [bind, Except.bind]⟩
  | ok sums =>
    left
    refine ⟨{ E_proton := s.Reconstruction.E_Proton
              E_iron := s.Reconstruction.E_Iron
              Zen := s.Reconstruction.zen
              Q400 := sums.Q400
              MuonVEM := sums.MuonVEM
              nMuon := sums.nMuon
              Ptype := s.Primary.Ptype }, ?_, ?_⟩ <;>
      simp [bind, Except.bind, pure, Except.pure]

/-- Closed form of process_shower when every signal sequence covers the
Tank index range: the accumulator grows by exactly the row of
neural_network_data.py line 28. -/
lemma process_shower_spec (s : Shower) (g : List Row400) (d p v mpe nm : ℕ → ℚ)
    (hd : ∀ j, j < s.Signals.Tank.length → s.Signals.LatDist.get? j = some (d j))
    (hp : ∀ j, j < s.Signals.Tank.length → s.Signals.TotalPE.get? j = some (p j))
    (hv : ∀ j, j < s.Signals.Tank.length → s.Signals.TotalVEM.get? j = some (v j))
    (hm : ∀ j, j < s.Signals.Tank.length → s.Signals.MuonPE.get? j = some (mpe j))
    (hn : ∀ j, j < s.Signals.Tank.length → s.Signals.nMuons.get? j = some (nm j)) :
    process_shower s g = .ok (g ++
      [{ E_proton := s.Reconstruction.E_Proton
         E_iron := s.Reconstruction.E_Iron
         Zen := s.Reconstruction.zen
         Q400 := ∑ j ∈ Finset.range s.Signals.Tank.length,
           (if (400 < d j ∧ p j ≠ 0) ∧ (0.6 ≤ v j ∧ v j ≤ 2.0) then v j else 0)
         MuonVEM := ∑ j ∈ Finset.range s.Signals.Tank.length,
           (if 400 < d j ∧ p j ≠ 0 then v j / p j * mpe j else 0)
         nMuon := ∑ j ∈ Finset.range s.Signals.Tank.length,
           (if 400 < d j ∧ p j ≠ 0 then nm j else 0)
         Ptype := s.Primary.Ptype }]) := by
  unfold process_shower
  rw [loopIdx400_range_spec s.Signals s.Signals.Tank.length d p v mpe nm
    hd hp hv hm hn ⟨0, 0, 0⟩]
  simp [bind, Except.bind, pure, Except.pure]

/-- Any error the strict-cut detector loop raises is an IndexError. -/
lemma loopIdx400_err_index (sig : Signals) :
    ∀ (l : List ℕ) (acc : Sums400) (e : PyError),
      loopIdx400 sig l acc = .error e → e = .indexError := by
  intro l
  induction l with
  | nil => intro acc e h; simp [loopIdx400] at h
  | cons i is ih =>
    intro acc e h
    rw [loopIdx400] at h
    cases hb : loopBody400 sig acc i with
    | error e2 =>
      rw [hb] at h
      simp only [bind, Except.bind] at h
      cases e2 with
      | indexError => exact (Except.error.injEq _ _).mp h.symm
      | zeroDivisionError => exact absurd hb (loopBody400_ne_zeroDiv sig acc i)
    | ok acc2 =>
      rw [hb] at h
      simp only [bind, Except.bind] at h
      exact ih acc2 e h

/-- process_shower never raises ZeroDivisionError. -/
lemma process_shower_ne_zeroDiv (s : Shower) (g : List Row400) :
    process_shower s g ≠ .error .zeroDivisionError := by
  unfold process_shower
  cases hl : loopIdx400 s.Signals (List.range s.Signals.Tank.length) ⟨0, 0, 0⟩ with
  | error e =>
    simp only [bind, Except.bind]
    intro hcon
    cases hcon
    have hix := loopIdx400_err_index s.Signals _ _ _ hl
    simp at hix
  | ok sums => simp [bind, Except.bind, pure, Except.pure]

/-! ### The per-run totals and averages of avg_runs -/

/-- Closed form of the inner scan of avg_runs: the totals accumulate the
count and the field sums of exactly the rows whose run id matches. -/
lemma foldl_tally (Run : ℤ) :
    ∀ (L : List FeatureRow) (t : Totals),
      L.foldl (tally Run) t =
        { nShowers := t.nShowers + ((L.filter (fun s => s.Run == Run)).length : ℚ)
          Energy := t.Energy + ((L.filter (fun s => s.Run == Run)).map (fun s => s.Energy)).sum
          Zen := t.Zen + ((L.filter (fun s => s.Run == Run)).map (fun s => s.Zen)).sum
          TimeDelay := t.TimeDelay +
            ((L.filter (fun s => s.Run == Run)).map (fun s => s.TimeDelay)).sum
          Q := t.Q + ((L.filter (fun s => s.Run == Run)).map (fun s => s.Q)).sum
          MuonVEM := t.MuonVEM +
            ((L.filter (fun s => s.Run == Run)).map (fun s => s.MuonVEM)).sum
          nMuons := t.nMuons +
            ((L.filter (fun s => s.Run == Run)).map (fun s => s.nMuons)).sum } := by
  intro L
  induction L with
  | nil => intro t; cases t; simp
  | cons r L ih =>
    intro t
    simp only [List.foldl_cons]
    rw [ih]
    by_cases h : r.Run = Run
    · simp only [tally, if_pos h, List.filter_cons, beq_iff_eq, h, if_true,
        List.map_cons, List.sum_cons, List.length_cons, Totals.mk.injEq]
      refine ⟨?_, ?_, ?_, ?_, ?_, ?_, ?_⟩ <;> push_cast <;> ring
    · simp only [tally, if_neg h, List.filter_cons, beq_iff_eq, h, if_false]

/-- A run id occurring among the rows selects a nonempty sublist. -/
lemma filter_run_ne_nil (L : List FeatureRow) (Run : ℤ)
    (h : Run ∈ L.map (fun s => s.Run)) :
    (L.filter (fun s => s.Run == Run)).length ≠ 0 := by
  obtain ⟨s, hs, hr⟩ := List.mem_map.mp h
  have hmem : s ∈ L.filter (fun s => s.Run == Run) :=
    List.mem_filter.mpr ⟨hs, by simp [hr]⟩
  intro hlen
  rw [List.length_eq_zero] at hlen
  simp [hlen] at hmem

/-- Closed form of one outer-loop iteration of avg_runs for a run id with
at least one matching row: each numeric field of the averaged row is the
field sum of the matching rows divided by their count. -/
lemma avgRun_spec (L : List FeatureRow) (Ptype : String) (Run : ℤ)
    (h : (L.filter (fun s => s.Run == Run)).length ≠ 0) :
    avgRun L Ptype Run = .ok
      { Run := Run
        Energy := ((L.filter (fun s => s.Run == Run)).map (fun s => s.Energy)).sum /
          ((L.filter (fun s => s.Run == Run)).length : ℚ)
        Zen := ((L.filter (fun s => s.Run == Run)).map (fun s => s.Zen)).sum /
          ((L.filter (fun s => s.Run == Run)).length : ℚ)
        TimeDelay := ((L.filter (fun s => s.Run == Run)).map (fun s => s.TimeDelay)).sum /
          ((L.filter (fun s => s.Run == Run)).length : ℚ)
        Q := ((L.filter (fun s => s.Run == Run)).map (fun s => s.Q)).sum /
          ((L.filter (fun s => s.Run == Run)).length : ℚ)
        MuonVEM := ((L.filter (fun s => s.Run == Run)).map (fun s => s.MuonVEM)).sum /
          ((L.filter (fun s => s.Run == Run)).length : ℚ)
        nMuons := ((L.filter (fun s => s.Run == Run)).map (fun s => s.nMuons)).sum /
          ((L.filter (fun s => s.Run == Run)).length : ℚ)
        Ptype := Ptype } := by
  have hc : ((L.filter (fun s => s.Run == Run)).length : ℚ) ≠ 0 :=
    Nat.cast_ne_zero.mpr h
  unfold avgRun
  rw [foldl_tally]
  simp [bind, Except.bind, pure, Except.pure, pyDiv, hc]

/-- The outer loop of avg_runs over run ids all of which occur in the
rows: it succeeds, emits the rows in the order of the id list with those
ids, and every emitted row carries the supplied label and the per-run
field means. -/
lemma avgRunsLoop_spec (L : List FeatureRow) (Ptype : String) :
    ∀ l : List ℤ, (∀ Run ∈ l, Run ∈ L.map (fun s => s.Run)) →
      ∃ out, avgRunsLoop L Ptype l = .ok out ∧
        out.map (fun r => r.Run) = l ∧
        ∀ r ∈ out, r.Ptype = Ptype ∧
          r.Energy = ((L.filter (fun s => s.Run == r.Run)).map (fun s => s.Energy)).sum /
            ((L.filter (fun s => s.Run == r.Run)).length : ℚ) ∧
          r.Zen = ((L.filter (fun s => s.Run == r.Run)).map (fun s => s.Zen)).sum /
            ((L.filter (fun s => s.Run == r.Run)).length : ℚ) ∧
          r.TimeDelay = ((L.filter (fun s => s.Run == r.Run)).map (fun s => s.TimeDelay)).sum /
            ((L.filter (fun s => s.Run == r.Run)).length : ℚ) ∧
          r.Q = ((L.filter (fun s => s.Run == r.Run)).map (fun s => s.Q)).sum /
            ((L.filter (fun s => s.Run == r.Run)).length : ℚ) ∧
          r.MuonVEM = ((L.filter (fun s => s.Run == r.Run)).map (fun s => s.MuonVEM)).sum /
            ((L.filter (fun s => s.Run == r.Run)).length : ℚ) ∧
          r.nMuons = ((L.filter (fun s => s.Run == r.Run)).map (fun s => s.nMuons)).sum /
            ((L.filter (fun s => s.Run == r.Run)).length : ℚ) := by
  intro l
  induction l with
  | nil =>
    intro _
    exact ⟨[], rfl, rfl, by intro r hr; simp at hr⟩
  | cons Run rest ih =>
    intro hall
    obtain ⟨out2, hout2, hmap2, hfields2⟩ :=
      ih (fun R hR => hall R (List.mem_cons_of_mem _ hR))
    have hrow := avgRun_spec L Ptype Run
      (filter_run_ne_nil L Run (hall Run (List.mem_cons_self _ _)))
    refine ⟨{ Run := Run
              Energy := ((L.filter (fun s => s.Run == Run)).map (fun s => s.Energy)).sum /
                ((L.filter (fun s => s.Run == Run)).length : ℚ)
              Zen := ((L.filter (fun s => s.Run == Run)).map (fun s => s.Zen)).sum /
                ((L.filter (fun s => s.Run == Run)).length : ℚ)
              TimeDelay := ((L.filter (fun s => s.Run == Run)).map (fun s => s.TimeDelay)).sum /
                ((L.filter (fun s => s.Run == Run)).length : ℚ)
              Q := ((L.filter (fun s => s.Run == Run)).map (fun s => s.Q)).sum /
                ((L.filter (fun s => s.Run == Run)).length : ℚ)
              MuonVEM := ((L.filter (fun s => s.Run == Run)).map (fun s => s.MuonVEM)).sum /
                ((L.filter (fun s => s.Run == Run)).length : ℚ)
              nMuons := ((L.filter (fun s => s.Run == Run)).map (fun s => s.nMuons)).sum /
                ((L.filter (fun s => s.Run == Run)).length : ℚ)
              Ptype := Ptype } :: out2, ?_, ?_, ?_⟩
    · rw [avgRunsLoop, hrow]
      simp [bind, Except.bind, pure, Except.pure, hout2]
    · simp [hmap2]
    · intro r hr
      rcases List.mem_cons.mp hr with h | h
      · subst h
        refine ⟨rfl, rfl, rfl, rfl, rfl, rfl, rfl⟩
      · exact hfields2 r h

/-- Master lemma for avg_runs: it always succeeds, the emitted run ids are
exactly the distinct run ids of the input, and every emitted row carries
the supplied label and the per-run arithmetic means. -/
lemma avg_runs_spec (L : List FeatureRow) (Ptype : String) :
    ∃ out, avg_runs L Ptype = .ok out ∧
      out.map (fun r => r.Run) = (L.map (fun s => s.Run)).dedup ∧
      ∀ r ∈ out, r.Ptype = Ptype ∧
        r.Energy = ((L.filter (fun s => s.Run == r.Run)).map (fun s => s.Energy)).sum /
          ((L.filter (fun s => s.Run == r.Run)).length : ℚ) ∧
        r.Zen = ((L.filter (fun s => s.Run == r.Run)).map (fun s => s.Zen)).sum /
          ((L.filter (fun s => s.Run == r.Run)).length : ℚ) ∧
        r.TimeDelay = ((L.filter (fun s => s.Run == r.Run)).map (fun s => s.TimeDelay)).sum /
          ((L.filter (fun s => s.Run == r.Run)).length : ℚ) ∧
        r.Q = ((L.filter (fun s => s.Run == r.Run)).map (fun s => s.Q)).sum /
          ((L.filter (fun s => s.Run == r.Run)).length : ℚ) ∧
        r.MuonVEM = ((L.filter (fun s => s.Run == r.Run)).map (fun s => s.MuonVEM)).sum /
          ((L.filter (fun s => s.Run == r.Run)).length : ℚ) ∧
        r.nMuons = ((L.filter (fun s => s.Run == r.Run)).map (fun s => s.nMuons)).sum /
          ((L.filter (fun s => s.Run == r.Run)).length : ℚ) := by
  unfold avg_runs
  exact avgRunsLoop_spec L Ptype (L.map (fun s => s.Run)).dedup
    (fun R hR => (List.mem_dedup).mp hR)

/-! ### Sums expressed through default-valued indexing -/

lemma get?_getD {xs : List ℚ} {j : ℕ} (h : j < xs.length) :
    xs.get? j = some (xs.getD j 0) := by
  cases hx : xs.get? j with
  | none => exact absurd (List.get?_eq_none.mp hx) (Nat.not_le.mpr h)
  | some x => rw [List.getD_eq_get?, hx]; rfl

/-- The feature row of process_showers with the detector signals read
through default-valued indexing, under the hypothesis that every signal
sequence is at least as long as the Tank sequence. -/
lemma processShowerBody_sums (s : Shower)
    (h1 : s.Signals.Tank.length ≤ s.Signals.LatDist.length)
    (h2 : s.Signals.Tank.length ≤ s.Signals.TotalPE.length)
    (h3 : s.Signals.Tank.length ≤ s.Signals.TotalVEM.length)
    (h4 : s.Signals.Tank.length ≤ s.Signals.MuonPE.length)
    (h5 : s.Signals.Tank.length ≤ s.Signals.nMuons.length)
    (h6 : s.Signals.Tank.length ≤ s.Signals.TimeDelay.length) :
    processShowerBody s = .ok
      { Run := s.Run
        Energy := s.Reconstruction.Energy
        Zen := s.Reconstruction.zen
        TimeDelay := ∑ j ∈ Finset.range s.Signals.Tank.length,
          (if (400 ≤ s.Signals.LatDist.getD j 0 ∧ s.Signals.TotalPE.getD j 0 ≠ 0) ∧
              (0.6 ≤ s.Signals.TotalVEM.getD j 0 ∧ s.Signals.TotalVEM.getD j 0 ≤ 2.0)
            then |s.Signals.TimeDelay.getD j 0| else 0)
        Q := ∑ j ∈ Finset.range s.Signals.Tank.length,
          (if (400 ≤ s.Signals.LatDist.getD j 0 ∧ s.Signals.TotalPE.getD j 0 ≠ 0) ∧
              (0.6 ≤ s.Signals.TotalVEM.getD j 0 ∧ s.Signals.TotalVEM.getD j 0 ≤ 2.0)
            then s.Signals.TotalVEM.getD j 0 else 0)
        MuonVEM := ∑ j ∈ Finset.range s.Signals.Tank.length,
          (if 400 ≤ s.Signals.LatDist.getD j 0 ∧ s.Signals.TotalPE.getD j 0 ≠ 0
            then s.Signals.TotalVEM.getD j 0 / s.Signals.TotalPE.getD j 0 *
              s.Signals.MuonPE.getD j 0 else 0)
        nMuons := ∑ j ∈ Finset.range s.Signals.Tank.length,
          (if 400 ≤ s.Signals.LatDist.getD j 0 ∧ s.Signals.TotalPE.getD j 0 ≠ 0
            then s.Signals.nMuons.getD j 0 else 0)
        Ptype := s.Primary.Ptype } :=
  processShowerBody_spec s
    (fun j => s.Signals.LatDist.getD j 0) (fun j => s.Signals.TotalPE.getD j 0)
    (fun j => s.Signals.TotalVEM.getD j 0) (fun j => s.Signals.MuonPE.getD j 0)
    (fun j => s.Signals.nMuons.getD j 0) (fun j => s.Signals.TimeDelay.getD j 0)
    (fun j hj => get?_getD (lt_of_lt_of_le hj h1))
    (fun j hj => get?_getD (lt_of_lt_of_le hj h2))
    (fun j hj => get?_getD (lt_of_lt_of_le hj h3))
    (fun j hj => get?_getD (lt_of_lt_of_le hj h4))
    (fun j hj => get?_getD (lt_of_lt_of_le hj h5))
    (fun j hj => get?_getD (lt_of_lt_of_le hj h6))

/-- The appended row of process_shower with the detector signals read
through default-valued indexing. -/
lemma process_shower_sums (s : Shower) (g : List Row400)
    (h1 : s.Signals.Tank.length ≤ s.Signals.LatDist.length)
    (h2 : s.Signals.Tank.length ≤ s.Signals.TotalPE.length)
    (h3 : s.Signals.Tank.length ≤ s.Signals.TotalVEM.length)
    (h4 : s.Signals.Tank.length ≤ s.Signals.MuonPE.length)
    (h5 : s.Signals.Tank.length ≤ s.Signals.nMuons.length) :
    process_shower s g = .ok (g ++
      [{ E_proton := s.Reconstruction.E_Proton
         E_iron := s.Reconstruction.E_Iron
         Zen := s.Reconstruction.zen
         Q400 := ∑ j ∈ Finset.range s.Signals.Tank.length,
           (if (400 < s.Signals.LatDist.getD j 0 ∧ s.Signals.TotalPE.getD j 0 ≠ 0) ∧
               (0.6 ≤ s.Signals.TotalVEM.getD j 0 ∧ s.Signals.TotalVEM.getD j 0 ≤ 2.0)
             then s.Signals.TotalVEM.getD j 0 else 0)
         MuonVEM := ∑ j ∈ Finset.range s.Signals.Tank.length,
           (if 400 < s.Signals.LatDist.getD j 0 ∧ s.Signals.TotalPE.getD j 0 ≠ 0
             then s.Signals.TotalVEM.getD j 0 / s.Signals.TotalPE.getD j 0 *
               s.Signals.MuonPE.getD j 0 else 0)
         nMuon := ∑ j ∈ Finset.range s.Signals.Tank.length,
           (if 400 < s.Signals.LatDist.getD j 0 ∧ s.Signals.TotalPE.getD j 0 ≠ 0
             then s.Signals.nMuons.getD j 0 else 0)
         Ptype := s.Primary.Ptype }]) :=
  process_shower_spec s g
    (fun j => s.Signals.LatDist.getD j 0) (fun j => s.Signals.TotalPE.getD j 0)
    (fun j => s.Signals.TotalVEM.getD j 0) (fun j => s.Signals.MuonPE.getD j 0)
    (fun j => s.Signals.nMuons.getD j 0)
    (fun j hj => get?_getD (lt_of_lt_of_le hj h1))
    (fun j hj => get?_getD (lt_of_lt_of_le hj h2))
    (fun j hj => get?_getD (lt_of_lt_of_le hj h3))
    (fun j hj => get?_getD (lt_of_lt_of_le hj h4))
    (fun j hj => get?_getD (lt_of_lt_of_le hj h5))

/-! ### Evaluation of the fixtures -/

lemma processShowerBody_demo : processShowerBody demoShower = .ok
    { Run := 7, Energy := 10, Zen := 1/2, TimeDelay := 3, Q := 1,
      MuonVEM := 1/2, nMuons := 2, Ptype := "PPlus" } := by
  rw [processShowerBody_sums demoShower (by decide) (by decide) (by decide)
    (by decide) (by decide) (by decide)]
  norm_num [demoShower, Finset.sum_range_succ, List.getD]

lemma process_showers_demo : process_showers [demoShower] = .ok
    [{ Run := 7, Energy := 10, Zen := 1/2, TimeDelay := 3, Q := 1,
       MuonVEM := 1/2, nMuons := 2, Ptype := "PPlus" }] := by
  rw [process_showers, processShowerBody_demo]
  simp [process_showers, bind, Except.bind, pure, Except.pure]

lemma process_shower_demo : process_shower demoShower [] = .ok
    [{ E_proton := 11, E_iron := 12, Zen := 1/2, Q400 := 1, MuonVEM := 1/2,
       nMuon := 2, Ptype := "PPlus" }] := by
  rw [process_shower_sums demoShower [] (by decide) (by decide) (by decide)
    (by decide) (by decide)]
  norm_num [demoShower, Finset.sum_range_succ, List.getD]

/-! ### Replicated-row facts used for the aggregation claims -/

lemma dedup_replicate {α : Type} [DecidableEq α] (x : α) :
    ∀ n : ℕ, n ≠ 0 → (List.replicate n x).dedup = [x] := by
  intro n
  induction n with
  | zero => intro h; exact absurd rfl h
  | succ m ih =>
    intro _
    cases m with
    | zero => simp
    | succ k =>
      rw [List.replicate_succ, List.dedup_cons_of_mem (by simp [List.mem_replicate])]
      exact ih (Nat.succ_ne_zero k)

lemma filter_run_replicate (n : ℕ) (r0 : FeatureRow) :
    (List.replicate n r0).filter (fun s => s.Run == r0.Run) = List.replicate n r0 := by
  apply List.filter_eq_self.mpr
  intro a ha
  rw [List.eq_of_mem_replicate ha]
  simp

lemma avg_runs_replicate_demo :
    avg_runs (List.replicate 2 demoRowA) "Fe56Nucleus" = .ok
      [{ Run := 3, Energy := 1, Zen := 2, TimeDelay := 3, Q := 4, MuonVEM := 5,
         nMuons := 6, Ptype := "Fe56Nucleus" }] := by
  have hded : ((List.replicate 2 demoRowA).map (fun s => s.Run)).dedup = [(3 : ℤ)] := by
    decide
  have hfil : (List.replicate 2 demoRowA).filter (fun s => s.Run == (3 : ℤ)) =
      List.replicate 2 demoRowA := filter_run_replicate 2 demoRowA
  have hne : ((List.replicate 2 demoRowA).filter (fun s => s.Run == (3 : ℤ))).length ≠ 0 := by
    rw [hfil]; simp
  rw [avg_runs, hded, avgRunsLoop, avgRun_spec _ _ 3 hne]
  simp only [hfil, List.map_replicate, List.sum_replicate, List.length_replicate,
    nsmul_eq_mul, avgRunsLoop, bind, Except.bind, pure, Except.pure]
  norm_num [demoRowA]

/-! ### The claims -/

/-- C1 (counterexample): the claim states that a detector is included in
the running sums iff lateral_distance[i] >= 400 and total_PE[i] != 0.  In
process_shower (neural_network_data.py) this fails: cxBoundary's single
detector sits exactly at distance 400 with PE 5 != 0 and 3 muons, so the
claimed condition holds, yet the appended row has all three sums equal to
0 — the strict cut > 400 excluded it. -/
theorem claim_C1_counterexample :
    ((400 : ℚ) ≤ cxBoundary.Signals.LatDist.getD 0 0 ∧
      cxBoundary.Signals.TotalPE.getD 0 0 ≠ 0) ∧
    cxBoundary.Signals.nMuons.getD 0 0 = 3 ∧
    process_shower cxBoundary [] = .ok
      [{ E_proton := 11, E_iron := 12, Zen := 1/2, Q400 := 0, MuonVEM := 0,
         nMuon := 0, Ptype := "PPlus" }] := by
  refine ⟨by norm_num [cxBoundary, List.getD], by norm_num [cxBoundary, List.getD], ?_⟩
  rw [process_shower_sums cxBoundary [] (by decide) (by decide) (by decide)
    (by decide) (by decide)]
  norm_num [cxBoundary, Finset.sum_range_one, List.getD]

/-- C1 (amended): in process_showers (NN_data.py) a detector enters the
running sums iff lateral_distance[i] >= 400 and total_PE[i] != 0; in
process_shower (neural_network_data.py) the distance cut is strict,
lateral_distance[i] > 400.  A detector failing its variant's condition
contributes to none of the sums. -/
theorem claim_C1 (s : Shower)
    (h1 : s.Signals.Tank.length ≤ s.Signals.LatDist.length)
    (h2 : s.Signals.Tank.length ≤ s.Signals.TotalPE.length)
    (h3 : s.Signals.Tank.length ≤ s.Signals.TotalVEM.length)
    (h4 : s.Signals.Tank.length ≤ s.Signals.MuonPE.length)
    (h5 : s.Signals.Tank.length ≤ s.Signals.nMuons.length)
    (h6 : s.Signals.Tank.length ≤ s.Signals.TimeDelay.length) :
    (∃ row, processShowerBody s = .ok row ∧
      row.TimeDelay = ∑ j ∈ Finset.range s.Signals.Tank.length,
        (if (400 ≤ s.Signals.LatDist.getD j 0 ∧ s.Signals.TotalPE.getD j 0 ≠ 0) ∧
            (0.6 ≤ s.Signals.TotalVEM.getD j 0 ∧ s.Signals.TotalVEM.getD j 0 ≤ 2.0)
          then |s.Signals.TimeDelay.getD j 0| else 0) ∧
      row.Q = ∑ j ∈ Finset.range s.Signals.Tank.length,
        (if (400 ≤ s.Signals.LatDist.getD j 0 ∧ s.Signals.TotalPE.getD j 0 ≠ 0) ∧
            (0.6 ≤ s.Signals.TotalVEM.getD j 0 ∧ s.Signals.TotalVEM.getD j 0 ≤ 2.0)
          then s.Signals.TotalVEM.getD j 0 else 0) ∧
      row.MuonVEM = ∑ j ∈ Finset.range s.Signals.Tank.length,
        (if 400 ≤ s.Signals.LatDist.getD j 0 ∧ s.Signals.TotalPE.getD j 0 ≠ 0
          then s.Signals.TotalVEM.getD j 0 / s.Signals.TotalPE.getD j 0 *
            s.Signals.MuonPE.getD j 0 else 0) ∧
      row.nMuons = ∑ j ∈ Finset.range s.Signals.Tank.length,
        (if 400 ≤ s.Signals.LatDist.getD j 0 ∧ s.Signals.TotalPE.getD j 0 ≠ 0
          then s.Signals.nMuons.getD j 0 else 0)) ∧
    (∀ g, ∃ row4, process_shower s g = .ok (g ++ [row4]) ∧
      row4.Q400 = ∑ j ∈ Finset.range s.Signals.Tank.length,
        (if (400 < s.Signals.LatDist.getD j 0 ∧ s.Signals.TotalPE.getD j 0 ≠ 0) ∧
            (0.6 ≤ s.Signals.TotalVEM.getD j 0 ∧ s.Signals.TotalVEM.getD j 0 ≤ 2.0)
          then s.Signals.TotalVEM.getD j 0 else 0) ∧
      row4.MuonVEM = ∑ j ∈ Finset.range s.Signals.Tank.length,
        (if 400 < s.Signals.LatDist.getD j 0 ∧ s.Signals.TotalPE.getD j 0 ≠ 0
          then s.Signals.TotalVEM.getD j 0 / s.Signals.TotalPE.getD j 0 *
            s.Signals.MuonPE.getD j 0 else 0) ∧
      row4.nMuon = ∑ j ∈ Finset.range s.Signals.Tank.length,
        (if 400 < s.Signals.LatDist.getD j 0 ∧ s.Signals.TotalPE.getD j 0 ≠ 0
          then s.Signals.nMuons.getD j 0 else 0)) ∧
    (∀ j, ¬(400 ≤ s.Signals.LatDist.getD j 0 ∧ s.Signals.TotalPE.getD j 0 ≠ 0) →
      (if (400 ≤ s.Signals.LatDist.getD j 0 ∧ s.Signals.TotalPE.getD j 0 ≠ 0) ∧
          (0.6 ≤ s.Signals.TotalVEM.getD j 0 ∧ s.Signals.TotalVEM.getD j 0 ≤ 2.0)
        then |s.Signals.TimeDelay.getD j 0| else 0) = 0 ∧
      (if (400 ≤ s.Signals.LatDist.getD j 0 ∧ s.Signals.TotalPE.getD j 0 ≠ 0) ∧
          (0.6 ≤ s.Signals.TotalVEM.getD j 0 ∧ s.Signals.TotalVEM.getD j 0 ≤ 2.0)
        then s.Signals.TotalVEM.getD j 0 else 0) = 0 ∧
      (if 400 ≤ s.Signals.LatDist.getD j 0 ∧ s.Signals.TotalPE.getD j 0 ≠ 0
        then s.Signals.TotalVEM.getD j 0 / s.Signals.TotalPE.getD j 0 *
          s.Signals.MuonPE.getD j 0 else 0) = 0 ∧
      (if 400 ≤ s.Signals.LatDist.getD j 0 ∧ s.Signals.TotalPE.getD j 0 ≠ 0
        then s.Signals.nMuons.getD j 0 else 0) = 0) ∧
    (∀ j, ¬(400 < s.Signals.LatDist.getD j 0 ∧ s.Signals.TotalPE.getD j 0 ≠ 0) →
      (if (400 < s.Signals.LatDist.getD j 0 ∧ s.Signals.TotalPE.getD j 0 ≠ 0) ∧
          (0.6 ≤ s.Signals.TotalVEM.getD j 0 ∧ s.Signals.TotalVEM.getD j 0 ≤ 2.0)
        then s.Signals.TotalVEM.getD j 0 else 0) = 0 ∧
      (if 400 < s.Signals.LatDist.getD j 0 ∧ s.Signals.TotalPE.getD j 0 ≠ 0
        then s.Signals.TotalVEM.getD j 0 / s.Signals.TotalPE.getD j 0 *
          s.Signals.MuonPE.getD j 0 else 0) = 0 ∧
      (if 400 < s.Signals.LatDist.getD j 0 ∧ s.Signals.TotalPE.getD j 0 ≠ 0
        then s.Signals.nMuons.getD j 0 else 0) = 0) := by
  refine ⟨⟨_, processShowerBody_sums s h1 h2 h3 h4 h5 h6, rfl, rfl, rfl, rfl⟩,
    fun g => ⟨_, process_shower_sums s g h1 h2 h3 h4 h5, rfl, rfl, rfl⟩, ?_, ?_⟩
  · intro j hj
    refine ⟨?_, ?_, ?_, ?_⟩ <;> rw [if_neg] <;> tauto
  · intro j hj
    refine ⟨?_, ?_, ?_⟩ <;> rw [if_neg] <;> tauto

/-- C1 (witness): the amended claim instantiated at the two-detector
example shower. -/
theorem claim_C1_witness :
    ∃ row, processShowerBody demoShower = .ok row ∧
      row.TimeDelay = ∑ j ∈ Finset.range demoShower.Signals.Tank.length,
        (if (400 ≤ demoShower.Signals.LatDist.getD j 0 ∧
              demoShower.Signals.TotalPE.getD j 0 ≠ 0) ∧
            (0.6 ≤ demoShower.Signals.TotalVEM.getD j 0 ∧
              demoShower.Signals.TotalVEM.getD j 0 ≤ 2.0)
          then |demoShower.Signals.TimeDelay.getD j 0| else 0) ∧
      row.Q = ∑ j ∈ Finset.range demoShower.Signals.Tank.length,
        (if (400 ≤ demoShower.Signals.LatDist.getD j 0 ∧
              demoShower.Signals.TotalPE.getD j 0 ≠ 0) ∧
            (0.6 ≤ demoShower.Signals.TotalVEM.getD j 0 ∧
              demoShower.Signals.TotalVEM.getD j 0 ≤ 2.0)
          then demoShower.Signals.TotalVEM.getD j 0 else 0) ∧
      row.MuonVEM = ∑ j ∈ Finset.range demoShower.Signals.Tank.length,
        (if 400 ≤ demoShower.Signals.LatDist.getD j 0 ∧
            demoShower.Signals.TotalPE.getD j 0 ≠ 0
          then demoShower.Signals.TotalVEM.getD j 0 /
            demoShower.Signals.TotalPE.getD j 0 *
            demoShower.Signals.MuonPE.getD j 0 else 0) ∧
      row.nMuons = ∑ j ∈ Finset.range demoShower.Signals.Tank.length,
        (if 400 ≤ demoShower.Signals.LatDist.getD j 0 ∧
            demoShower.Signals.TotalPE.getD j 0 ≠ 0
          then demoShower.Signals.nMuons.getD j 0 else 0) :=
  (claim_C1 demoShower (by decide) (by decide) (by decide) (by decide)
    (by decide) (by decide)).1

/-- C2: the charge and time-delay sums accumulate contributions only from
distance/PE-selected detectors whose VEM charge lies in [0.6, 2.0], the
time-delay contribution being the absolute time delay and the charge
contribution the VEM charge; a selected detector with VEM charge 2.1
contributes to the muon sums but adds 0 to the charge and time-delay
sums.  The same band restriction governs the Q400 sum of process_shower. -/
theorem claim_C2 (s : Shower)
    (h1 : s.Signals.Tank.length ≤ s.Signals.LatDist.length)
    (h2 : s.Signals.Tank.length ≤ s.Signals.TotalPE.length)
    (h3 : s.Signals.Tank.length ≤ s.Signals.TotalVEM.length)
    (h4 : s.Signals.Tank.length ≤ s.Signals.MuonPE.length)
    (h5 : s.Signals.Tank.length ≤ s.Signals.nMuons.length)
    (h6 : s.Signals.Tank.length ≤ s.Signals.TimeDelay.length) :
    (∃ row, processShowerBody s = .ok row ∧
      row.TimeDelay = ∑ j ∈ Finset.range s.Signals.Tank.length,
        (if (400 ≤ s.Signals.LatDist.getD j 0 ∧ s.Signals.TotalPE.getD j 0 ≠ 0) ∧
            (0.6 ≤ s.Signals.TotalVEM.getD j 0 ∧ s.Signals.TotalVEM.getD j 0 ≤ 2.0)
          then |s.Signals.TimeDelay.getD j 0| else 0) ∧
      row.Q = ∑ j ∈ Finset.range s.Signals.Tank.length,
        (if (400 ≤ s.Signals.LatDist.getD j 0 ∧ s.Signals.TotalPE.getD j 0 ≠ 0) ∧
            (0.6 ≤ s.Signals.TotalVEM.getD j 0 ∧ s.Signals.TotalVEM.getD j 0 ≤ 2.0)
          then s.Signals.TotalVEM.getD j 0 else 0) ∧
      row.MuonVEM = ∑ j ∈ Finset.range s.Signals.Tank.length,
        (if 400 ≤ s.Signals.LatDist.getD j 0 ∧ s.Signals.TotalPE.getD j 0 ≠ 0
          then s.Signals.TotalVEM.getD j 0 / s.Signals.TotalPE.getD j 0 *
            s.Signals.MuonPE.getD j 0 else 0) ∧
      row.nMuons = ∑ j ∈ Finset.range s.Signals.Tank.length,
        (if 400 ≤ s.Signals.LatDist.getD j 0 ∧ s.Signals.TotalPE.getD j 0 ≠ 0
          then s.Signals.nMuons.getD j 0 else 0)) ∧
    (∀ j, s.Signals.TotalVEM.getD j 0 = 21/10 →
      (if (400 ≤ s.Signals.LatDist.getD j 0 ∧ s.Signals.TotalPE.getD j 0 ≠ 0) ∧
          (0.6 ≤ s.Signals.TotalVEM.getD j 0 ∧ s.Signals.TotalVEM.getD j 0 ≤ 2.0)
        then |s.Signals.TimeDelay.getD j 0| else 0) = 0 ∧
      (if (400 ≤ s.Signals.LatDist.getD j 0 ∧ s.Signals.TotalPE.getD j 0 ≠ 0) ∧
          (0.6 ≤ s.Signals.TotalVEM.getD j 0 ∧ s.Signals.TotalVEM.getD j 0 ≤ 2.0)
        then s.Signals.TotalVEM.getD j 0 else 0) = 0 ∧
      (400 ≤ s.Signals.LatDist.getD j 0 ∧ s.Signals.TotalPE.getD j 0 ≠ 0 →
        (if 400 ≤ s.Signals.LatDist.getD j 0 ∧ s.Signals.TotalPE.getD j 0 ≠ 0
          then s.Signals.TotalVEM.getD j 0 / s.Signals.TotalPE.getD j 0 *
            s.Signals.MuonPE.getD j 0 else 0) =
          s.Signals.TotalVEM.getD j 0 / s.Signals.TotalPE.getD j 0 *
            s.Signals.MuonPE.getD j 0 ∧
        (if 400 ≤ s.Signals.LatDist.getD j 0 ∧ s.Signals.TotalPE.getD j 0 ≠ 0
          then s.Signals.nMuons.getD j 0 else 0) = s.Signals.nMuons.getD j 0)) ∧
    (∀ g, ∃ row4, process_shower s g = .ok (g ++ [row4]) ∧
      row4.Q400 = ∑ j ∈ Finset.range s.Signals.Tank.length,
        (if (400 < s.Signals.LatDist.getD j 0 ∧ s.Signals.TotalPE.getD j 0 ≠ 0) ∧
            (0.6 ≤ s.Signals.TotalVEM.getD j 0 ∧ s.Signals.TotalVEM.getD j 0 ≤ 2.0)
          then s.Signals.TotalVEM.getD j 0 else 0) ∧
      (∀ j, s.Signals.TotalVEM.getD j 0 = 21/10 →
        (if (400 < s.Signals.LatDist.getD j 0 ∧ s.Signals.TotalPE.getD j 0 ≠ 0) ∧
            (0.6 ≤ s.Signals.TotalVEM.getD j 0 ∧ s.Signals.TotalVEM.getD j 0 ≤ 2.0)
          then s.Signals.TotalVEM.getD j 0 else 0) = 0)) := by
  refine ⟨⟨_, processShowerBody_sums s h1 h2 h3 h4 h5 h6, rfl, rfl, rfl, rfl⟩, ?_, ?_⟩
  · intro j hv
    have hband : ¬(0.6 ≤ s.Signals.TotalVEM.getD j 0 ∧
        s.Signals.TotalVEM.getD j 0 ≤ 2.0) := by
      rw [hv]; norm_num
    refine ⟨by rw [if_neg]; tauto, by rw [if_neg]; tauto, ?_⟩
    intro hsel
    exact ⟨by rw [if_pos hsel], by rw [if_pos hsel]⟩
  · intro g
    refine ⟨_, process_shower_sums s g h1 h2 h3 h4 h5, rfl, ?_⟩
    intro j hv
    have hband : ¬(0.6 ≤ s.Signals.TotalVEM.getD j 0 ∧
        s.Signals.TotalVEM.getD j 0 ≤ 2.0) := by
      rw [hv]; norm_num
    rw [if_neg]; tauto

/-- C2 (witness): the claim instantiated at a shower whose single selected
detector has VEM charge 21/10, together with the evaluated consequence:
its feature row has zero charge and time-delay sums but nonzero muon
sums. -/
theorem claim_C2_witness :
    ((∃ row, processShowerBody cxVEM21 = .ok row ∧
      row.TimeDelay = ∑ j ∈ Finset.range cxVEM21.Signals.Tank.length,
        (if (400 ≤ cxVEM21.Signals.LatDist.getD j 0 ∧
              cxVEM21.Signals.TotalPE.getD j 0 ≠ 0) ∧
            (0.6 ≤ cxVEM21.Signals.TotalVEM.getD j 0 ∧
              cxVEM21.Signals.TotalVEM.getD j 0 ≤ 2.0)
          then |cxVEM21.Signals.TimeDelay.getD j 0| else 0) ∧
      row.Q = ∑ j ∈ Finset.range cxVEM21.Signals.Tank.length,
        (if (400 ≤ cxVEM21.Signals.LatDist.getD j 0 ∧
              cxVEM21.Signals.TotalPE.getD j 0 ≠ 0) ∧
            (0.6 ≤ cxVEM21.Signals.TotalVEM.getD j 0 ∧
              cxVEM21.Signals.TotalVEM.getD j 0 ≤ 2.0)
          then cxVEM21.Signals.TotalVEM.getD j 0 else 0) ∧
      row.MuonVEM = ∑ j ∈ Finset.range cxVEM21.Signals.Tank.length,
        (if 400 ≤ cxVEM21.Signals.LatDist.getD j 0 ∧
            cxVEM21.Signals.TotalPE.getD j 0 ≠ 0
          then cxVEM21.Signals.TotalVEM.getD j 0 /
            cxVEM21.Signals.TotalPE.getD j 0 *
            cxVEM21.Signals.MuonPE.getD j 0 else 0) ∧
      row.nMuons = ∑ j ∈ Finset.range cxVEM21.Signals.Tank.length,
        (if 400 ≤ cxVEM21.Signals.LatDist.getD j 0 ∧
            cxVEM21.Signals.TotalPE.getD j 0 ≠ 0
          then cxVEM21.Signals.nMuons.getD j 0 else 0))) ∧
    processShowerBody cxVEM21 = .ok
      { Run := 7, Energy := 10, Zen := 1/2, TimeDelay := 0, Q := 0,
        MuonVEM := 21/20, nMuons := 2, Ptype := "PPlus" } := by
  constructor
  · exact (claim_C2 cxVEM21 (by decide) (by decide) (by decide) (by decide)
      (by decide) (by decide)).1
  · rw [processShowerBody_sums cxVEM21 (by decide) (by decide) (by decide)
      (by decide) (by decide) (by decide)]
    norm_num [cxVEM21, Finset.sum_range_one, List.getD]

/-- C3: for both pipeline variants the scaled-muon-VEM sum is the sum of
(total_VEM[i]/total_PE[i]) * muon_PE[i] over all distance/PE-selected
detectors, and the muon-count sum is the sum of their muon counts, with
no restriction to the [0.6, 2.0] VEM band. -/
theorem claim_C3 (s : Shower)
    (h1 : s.Signals.Tank.length ≤ s.Signals.LatDist.length)
    (h2 : s.Signals.Tank.length ≤ s.Signals.TotalPE.length)
    (h3 : s.Signals.Tank.length ≤ s.Signals.TotalVEM.length)
    (h4 : s.Signals.Tank.length ≤ s.Signals.MuonPE.length)
    (h5 : s.Signals.Tank.length ≤ s.Signals.nMuons.length)
    (h6 : s.Signals.Tank.length ≤ s.Signals.TimeDelay.length) :
    (∃ row, processShowerBody s = .ok row ∧
      row.MuonVEM = ∑ j ∈ Finset.range s.Signals.Tank.length,
        (if 400 ≤ s.Signals.LatDist.getD j 0 ∧ s.Signals.TotalPE.getD j 0 ≠ 0
          then s.Signals.TotalVEM.getD j 0 / s.Signals.TotalPE.getD j 0 *
            s.Signals.MuonPE.getD j 0 else 0) ∧
      row.nMuons = ∑ j ∈ Finset.range s.Signals.Tank.length,
        (if 400 ≤ s.Signals.LatDist.getD j 0 ∧ s.Signals.TotalPE.getD j 0 ≠ 0
          then s.Signals.nMuons.getD j 0 else 0)) ∧
    (∀ g, ∃ row4, process_shower s g = .ok (g ++ [row4]) ∧
      row4.MuonVEM = ∑ j ∈ Finset.range s.Signals.Tank.length,
        (if 400 < s.Signals.LatDist.getD j 0 ∧ s.Signals.TotalPE.getD j 0 ≠ 0
          then s.Signals.TotalVEM.getD j 0 / s.Signals.TotalPE.getD j 0 *
            s.Signals.MuonPE.getD j 0 else 0) ∧
      row4.nMuon = ∑ j ∈ Finset.range s.Signals.Tank.length,
        (if 400 < s.Signals.LatDist.getD j 0 ∧ s.Signals.TotalPE.getD j 0 ≠ 0
          then s.Signals.nMuons.getD j 0 else 0)) :=
  ⟨⟨_, processShowerBody_sums s h1 h2 h3 h4 h5 h6, rfl, rfl⟩,
    fun g => ⟨_, process_shower_sums s g h1 h2 h3 h4 h5, rfl, rfl⟩⟩

/-- C3 (witness): the claim instantiated at the two-detector example
shower, together with the evaluated muon sums (scale 1/10 times muon PE 5
gives 1/2; muon count 2). -/
theorem claim_C3_witness :
    (∃ row, processShowerBody demoShower = .ok row ∧
      row.MuonVEM = ∑ j ∈ Finset.range demoShower.Signals.Tank.length,
        (if 400 ≤ demoShower.Signals.LatDist.getD j 0 ∧
            demoShower.Signals.TotalPE.getD j 0 ≠ 0
          then demoShower.Signals.TotalVEM.getD j 0 /
            demoShower.Signals.TotalPE.getD j 0 *
            demoShower.Signals.MuonPE.getD j 0 else 0) ∧
      row.nMuons = ∑ j ∈ Finset.range demoShower.Signals.Tank.length,
        (if 400 ≤ demoShower.Signals.LatDist.getD j 0 ∧
            demoShower.Signals.TotalPE.getD j 0 ≠ 0
          then demoShower.Signals.nMuons.getD j 0 else 0)) ∧
    (∀ g, ∃ row4, process_shower demoShower g = .ok (g ++ [row4]) ∧
      row4.MuonVEM = ∑ j ∈ Finset.range demoShower.Signals.Tank.length,
        (if 400 < demoShower.Signals.LatDist.getD j 0 ∧
            demoShower.Signals.TotalPE.getD j 0 ≠ 0
          then demoShower.Signals.TotalVEM.getD j 0 /
            demoShower.Signals.TotalPE.getD j 0 *
            demoShower.Signals.MuonPE.getD j 0 else 0) ∧
      row4.nMuon = ∑ j ∈ Finset.range demoShower.Signals.Tank.length,
        (if 400 < demoShower.Signals.LatDist.getD j 0 ∧
            demoShower.Signals.TotalPE.getD j 0 ≠ 0
          then demoShower.Signals.nMuons.getD j 0 else 0)) :=
  claim_C3 demoShower (by decide) (by decide) (by decide) (by decide)
    (by decide) (by decide)

/-- C4: every row avg_runs emits carries, in each numeric field except the
run id, the unweighted arithmetic mean of that field over the input rows
sharing its run id; consequently aggregating N identical copies of one
row for run R yields exactly one row for R whose numeric fields equal the
original's, tagged with the supplied label. -/
theorem claim_C4 (L : List FeatureRow) (T : String) (out : List AggRow)
    (h : avg_runs L T = .ok out) :
    (∀ r ∈ out,
      r.Energy = ((L.filter (fun s => s.Run == r.Run)).map (fun s => s.Energy)).sum /
        ((L.filter (fun s => s.Run == r.Run)).length : ℚ) ∧
      r.Zen = ((L.filter (fun s => s.Run == r.Run)).map (fun s => s.Zen)).sum /
        ((L.filter (fun s => s.Run == r.Run)).length : ℚ) ∧
      r.TimeDelay = ((L.filter (fun s => s.Run == r.Run)).map (fun s => s.TimeDelay)).sum /
        ((L.filter (fun s => s.Run == r.Run)).length : ℚ) ∧
      r.Q = ((L.filter (fun s => s.Run == r.Run)).map (fun s => s.Q)).sum /
        ((L.filter (fun s => s.Run == r.Run)).length : ℚ) ∧
      r.MuonVEM = ((L.filter (fun s => s.Run == r.Run)).map (fun s => s.MuonVEM)).sum /
        ((L.filter (fun s => s.Run == r.Run)).length : ℚ) ∧
      r.nMuons = ((L.filter (fun s => s.Run == r.Run)).map (fun s => s.nMuons)).sum /
        ((L.filter (fun s => s.Run == r.Run)).length : ℚ)) ∧
    (∀ (N : ℕ) (r0 : FeatureRow), 0 < N → L = List.replicate N r0 →
      out = [{ Run := r0.Run, Energy := r0.Energy, Zen := r0.Zen,
               TimeDelay := r0.TimeDelay, Q := r0.Q, MuonVEM := r0.MuonVEM,
               nMuons := r0.nMuons, Ptype := T }]) := by
  obtain ⟨out2, hok, hmap, hfields⟩ := avg_runs_spec L T
  rw [h] at hok
  have hoeq : out = out2 := (Except.ok.injEq _ _).mp hok
  subst hoeq
  refine ⟨fun r hr => (hfields r hr).2, ?_⟩
  intro N r0 hN hL
  subst hL
  rw [List.map_replicate, dedup_replicate r0.Run N hN.ne'] at hmap
  cases out with
  | nil => simp at hmap
  | cons r rest =>
    simp only [List.map_cons, List.cons.injEq] at hmap
    obtain ⟨hr1, hr2⟩ := hmap
    have hrest : rest = [] := List.map_eq_nil.mp hr2
    subst hrest
    obtain ⟨hT, hE, hZ, hTD, hQ, hMV, hNM⟩ := hfields r (List.mem_cons_self _ _)
    have hNne : ((N : ℕ) : ℚ) ≠ 0 := Nat.cast_ne_zero.mpr hN.ne'
    have hfil : (List.replicate N r0).filter (fun s => s.Run == r.Run) =
        List.replicate N r0 := by
      rw [hr1]; exact filter_run_replicate N r0
    rw [hfil, List.map_replicate, List.sum_replicate, List.length_replicate,
      nsmul_eq_mul, mul_div_cancel_left₀ _ hNne] at hE hZ hTD hQ hMV hNM
    cases r
    simp_all

/-- C4 (witness): aggregating two identical copies of the concrete row
demoRowA for run 3 yields exactly one row whose numeric fields equal
demoRowA's. -/
theorem claim_C4_witness :
    [({ Run := 3, Energy := 1, Zen := 2, TimeDelay := 3, Q := 4, MuonVEM := 5,
        nMuons := 6, Ptype := "Fe56Nucleus" } : AggRow)] =
      [{ Run := demoRowA.Run, Energy := demoRowA.Energy, Zen := demoRowA.Zen,
         TimeDelay := demoRowA.TimeDelay, Q := demoRowA.Q,
         MuonVEM := demoRowA.MuonVEM, nMuons := demoRowA.nMuons,
         Ptype := "Fe56Nucleus" }] :=
  (claim_C4 (List.replicate 2 demoRowA) "Fe56Nucleus" _
    avg_runs_replicate_demo).2 2 demoRowA (by norm_num) rfl

/-- C5: avg_runs emits exactly one aggregated row per distinct run id of
the input — the output length equals the number of distinct run ids, and
the emitted run ids are exactly the distinct input run ids — and every
output row is tagged with the label supplied as the aggregation
argument. -/
theorem claim_C5 (L : List FeatureRow) (T : String) :
    ∃ out, avg_runs L T = .ok out ∧
      out.length = (L.map (fun s => s.Run)).toFinset.card ∧
      out.map (fun r => r.Run) = (L.map (fun s => s.Run)).dedup ∧
      ∀ r ∈ out, r.Ptype = T := by
  obtain ⟨out, hok, hmap, hfields⟩ := avg_runs_spec L T
  refine ⟨out, hok, ?_, hmap, fun r hr => (hfields r hr).1⟩
  rw [List.card_toFinset]
  calc out.length = (out.map (fun r => r.Run)).length := (List.length_map _ _).symm
  _ = (L.map (fun s => s.Run)).dedup.length := by rw [hmap]

/-- C5 (witness): the count invariant instantiated at two identical rows
for run 3. -/
theorem claim_C5_witness :
    ∃ out, avg_runs (List.replicate 2 demoRowA) "PPlus" = .ok out ∧
      out.length = ((List.replicate 2 demoRowA).map (fun s => s.Run)).toFinset.card ∧
      out.map (fun r => r.Run) =
        ((List.replicate 2 demoRowA).map (fun s => s.Run)).dedup ∧
      ∀ r ∈ out, r.Ptype = "PPlus" :=
  claim_C5 (List.replicate 2 demoRowA) "PPlus"

/-- C6 (counterexample): the claim states that aggregating an empty
sequence fails with an explicit EmptyDatasetError; instead avg_runs
returns a result, the empty list of rows. -/
theorem claim_C6_counterexample : avg_runs [] "PPlus" = .ok [] := rfl

/-- C6 (amended): applied to an empty sequence of rows, avg_runs returns
an empty aggregated table without raising any error and without producing
NaN means — the code has no EmptyDatasetError. -/
theorem claim_C6 (T : String) : avg_runs [] T = .ok [] := rfl

/-- C7 (counterexample): the claim states that every shower with
mismatched parallel signal sequences makes extraction fail with a
DataShapeError; instead, cxMismatch — whose LatDist sequence is longer
than its Tank sequence — is processed without any error into an ordinary
feature row. -/
theorem claim_C7_counterexample :
    cxMismatch.Signals.LatDist.length ≠ cxMismatch.Signals.Tank.length ∧
    process_showers [cxMismatch] = .ok
      [{ Run := 7, Energy := 10, Zen := 1/2, TimeDelay := 0, Q := 0,
         MuonVEM := 0, nMuons := 0, Ptype := "PPlus" }] := by
  refine ⟨by decide, ?_⟩
  rw [process_showers, processShowerBody_sums cxMismatch (by decide) (by decide)
    (by decide) (by decide) (by decide) (by decide)]
  simp only [process_showers, bind, Except.bind, pure, Except.pure]
  norm_num [cxMismatch, Finset.sum_range_one, List.getD]

/-- C7 (amended): the code performs no length validation and has no
DataShapeError; it iterates over the Tank sequence's index range and
fails with a generic IndexError exactly when it actually reads an
out-of-range entry — in particular whenever LatDist is shorter than Tank,
since LatDist[i] is read at every iterated index — while mismatched
entries that are never read leave extraction returning a normal row. -/
theorem claim_C7 (s : Shower)
    (h : s.Signals.LatDist.length < s.Signals.Tank.length) :
    processShowerBody s = .error .indexError ∧
    ∀ rest, process_showers (s :: rest) = .error .indexError := by
  refine ⟨processShowerBody_latShort s h, ?_⟩
  intro rest
  rw [process_showers, processShowerBody_latShort s h]
  simp [bind, Except.bind]

/-- C7 (witness): the amended claim instantiated at a shower whose
LatDist sequence is shorter than its Tank sequence. -/
theorem claim_C7_witness :
    cxLatShort.Signals.LatDist.length < cxLatShort.Signals.Tank.length ∧
    (processShowerBody cxLatShort = .error .indexError ∧
      ∀ rest, process_showers (cxLatShort :: rest) = .error .indexError) :=
  ⟨by decide, claim_C7 cxLatShort (by decide)⟩

/-- C8: every division in the core logic is guarded — neither pipeline's
extractor can raise ZeroDivisionError, because the VEM/PE division
happens only after TotalPE[i] != 0 is established; and avg_runs divides
by a per-run shower count that is positive for every emitted run id
(each distinct run id comes from at least one row), so it always returns
a result. -/
theorem claim_C8 :
    (∀ L, process_showers L ≠ .error .zeroDivisionError) ∧
    (∀ (s : Shower) (g : List Row400),
      process_shower s g ≠ .error .zeroDivisionError) ∧
    (∀ (L : List FeatureRow) (Run : ℤ), Run ∈ (L.map (fun s => s.Run)).dedup →
      0 < (L.filter (fun s => s.Run == Run)).length) ∧
    (∀ (L : List FeatureRow) (T : String), ∃ out, avg_runs L T = .ok out) :=
  ⟨process_showers_ne_zeroDiv,
    process_shower_ne_zeroDiv,
    fun L Run h =>
      Nat.pos_of_ne_zero (filter_run_ne_nil L Run (List.mem_dedup.mp h)),
    fun L T => (avg_runs_spec L T).imp fun _ h => h.1⟩

/-- C8 (witness): the division guards instantiated at the concrete
fixtures. -/
theorem claim_C8_witness :
    process_showers [demoShower] ≠ .error .zeroDivisionError ∧
    process_shower demoShower [] ≠ .error .zeroDivisionError ∧
    0 < ((List.replicate 2 demoRowA).filter (fun s => s.Run == (3 : ℤ))).length ∧
    ∃ out, avg_runs (List.replicate 2 demoRowA) "PPlus" = .ok out :=
  ⟨claim_C8.1 [demoShower], claim_C8.2.1 demoShower [],
    claim_C8.2.2.1 (List.replicate 2 demoRowA) 3 (by decide),
    claim_C8.2.2.2 (List.replicate 2 demoRowA) "PPlus"⟩

/-- C9 (counterexample): the claim states the Feature Extractor has no
side effects beyond its return value and in particular appends to no
module-level accumulator list; process_shower (neural_network_data.py),
run on the example shower with an empty NNdata400 accumulator, leaves the
accumulator holding one new row. -/
theorem claim_C9_counterexample :
    process_shower demoShower [] = .ok
      [{ E_proton := 11, E_iron := 12, Zen := 1/2, Q400 := 1, MuonVEM := 1/2,
         nMuon := 2, Ptype := "PPlus" }] ∧
    [({ E_proton := 11, E_iron := 12, Zen := 1/2, Q400 := 1, MuonVEM := 1/2,
        nMuon := 2, Ptype := "PPlus" } : Row400)] ≠ ([] : List Row400) :=
  ⟨process_shower_demo, by simp⟩

/-- C9 (amended): process_showers (NN_data.py) is a pure function of its
input returning the feature rows; process_shower
(neural_network_data.py), modelled with the module-level NNdata400 list
as explicit state, either appends exactly one row — determined by the
shower alone — to that list, or fails with an error independent of the
list's prior contents. -/
theorem claim_C9 (s : Shower) (g : List Row400) :
    (∃ r, process_shower s g = .ok (g ++ [r]) ∧ process_shower s [] = .ok [r]) ∨
    (∃ e, process_shower s g = .error e ∧ process_shower s [] = .error e) :=
  process_shower_effect s g

/-- C9 (witness): the effect characterization instantiated at the example
shower and a nonempty prior accumulator. -/
theorem claim_C9_witness :
    (∃ r, process_shower demoShower
        [{ E_proton := 0, E_iron := 0, Zen := 0, Q400 := 0, MuonVEM := 0,
           nMuon := 0, Ptype := "old" }] = .ok
        ([{ E_proton := 0, E_iron := 0, Zen := 0, Q400 := 0, MuonVEM := 0,
            nMuon := 0, Ptype := "old" }] ++ [r]) ∧
      process_shower demoShower [] = .ok [r]) ∨
    (∃ e, process_shower demoShower
        [{ E_proton := 0, E_iron := 0, Zen := 0, Q400 := 0, MuonVEM := 0,
           nMuon := 0, Ptype := "old" }] = .error e ∧
      process_shower demoShower [] = .error e) :=
  claim_C9 demoShower
    [{ E_proton := 0, E_iron := 0, Zen := 0, Q400 := 0, MuonVEM := 0,
       nMuon := 0, Ptype := "old" }]

/-- C10: a successful run of process_showers returns exactly one feature
row per input shower, the output length equalling the input length and
the row at position i being the processed shower at position i. -/
theorem claim_C10 (L : List Shower) (out : List FeatureRow)
    (h : process_showers L = .ok out) :
    out.length = L.length ∧
    ∀ (i : ℕ) (s : Shower) (r : FeatureRow),
      L.get? i = some s → out.get? i = some r → processShowerBody s = .ok r :=
  process_showers_shape L out h

/-- C10 (witness): the shape invariant instantiated at the singleton
input list holding the example shower. -/
theorem claim_C10_witness :
    ([{ Run := 7, Energy := 10, Zen := 1/2, TimeDelay := 3, Q := 1,
        MuonVEM := 1/2, nMuons := 2, Ptype := "PPlus" }] : List FeatureRow).length =
      [demoShower].length ∧
    ∀ (i : ℕ) (s : Shower) (r : FeatureRow),
      [demoShower].get? i = some s →
      ([{ Run := 7, Energy := 10, Zen := 1/2, TimeDelay := 3, Q := 1,
          MuonVEM := 1/2, nMuons := 2, Ptype := "PPlus" }] : List FeatureRow).get? i =
        some r →
      processShowerBody s = .ok r :=
  claim_C10 [demoShower] _ process_showers_demo

end IceTop
